import Mathlib

/-!
Verification development for the presentation layer of the star-system-bot
desktop application. The definitions below are a shallow embedding of the
view-state logic found in `src/routes/test/+page.svelte` (translation chat),
`src/routes/bot/+page.svelte` (bot-setup wizard) and `src/lib/stores/chat.ts`
(message store). Remote commands (`invoke`) and the event subscription
(`listen`) are modelled as explicit outcomes and command lists: each handler
takes the outcome of its awaited remote call as a parameter and returns the
updated view state together with the list of follow-up commands it issues.
-/

namespace StarSystemBot

/-! ### JSON values

Local storage holds JSON-serialised data. `JSON.stringify` / `JSON.parse`
are the identity on the tree of JSON-safe values, so persistence is modelled
at the level of a JSON value tree. Fields whose value is `undefined` are
omitted by `JSON.stringify`, which the encoders below reflect by emitting
optional fields only when present. -/

inductive Json where
  | str (s : String)
  | boolVal (b : Bool)
  | num (n : Int)
  | null
  | arr (elems : List Json)
  | obj (fields : List (String × Json))

/-- Field lookup in a JSON object, first binding wins. -/
def lookupField : List (String × Json) → String → Option Json
  | [], _ => none
  | (k, v) :: rest, key => if k = key then some v else lookupField rest key

/-- Read a string-valued field of a JSON object. -/
def getStrField (fields : List (String × Json)) (key : String) : Option String :=
  match lookupField fields key with
  | some (Json.str s) => some s
  | _ => none

/-- Read a boolean-valued field of a JSON object. -/
def getBoolField (fields : List (String × Json)) (key : String) : Option Bool :=
  match lookupField fields key with
  | some (Json.boolVal b) => some b
  | _ => none

/-! ### Translation-chat messages (`src/routes/test/+page.svelte`) -/

/-- The `variant` union type `"sent" | "received"` of a chat `Message`. -/
inductive Variant where
  | sent
  | received
deriving DecidableEq, Repr

def variantToString : Variant → String
  | Variant.sent => "sent"
  | Variant.received => "received"

def variantOfString (s : String) : Option Variant :=
  if s = "sent" then some Variant.sent
  else if s = "received" then some Variant.received
  else none

/-- The `Message` record of the translation chat: id, content, variant,
timestamp, optional translated-language label, optional error flag. -/
structure Msg where
  id : String
  content : String
  variant : Variant
  timestamp : String
  language : Option String
  isError : Option Bool
deriving DecidableEq, Repr

/-- JSON image of one message, as produced by `JSON.stringify`: the two
optional fields are emitted only when present. -/
def msgToJson (m : Msg) : Json :=
  Json.obj
    ([("id", Json.str m.id), ("content", Json.str m.content),
      ("variant", Json.str (variantToString m.variant)),
      ("timestamp", Json.str m.timestamp)]
      ++ (match m.language with
          | some l => [("language", Json.str l)]
          | none => [])
      ++ (match m.isError with
          | some b => [("isError", Json.boolVal b)]
          | none => []))

/-- Typed readback of one message from its JSON image, as the component uses
the value returned by `JSON.parse` as a `Message`. -/
def msgOfJson : Json → Option Msg
  | Json.obj fields =>
      match getStrField fields "id", getStrField fields "content",
            getStrField fields "variant", getStrField fields "timestamp" with
      | some i, some c, some v, some t =>
          match variantOfString v with
          | some vv =>
              some ⟨i, c, vv, t, getStrField fields "language",
                    getBoolField fields "isError"⟩
          | none => none
      | _, _, _, _ => none
  | _ => none

/-- Element-wise readback of a message array. -/
def msgListOfJsonArr : List Json → Option (List Msg)
  | [] => some []
  | j :: rest =>
      match msgOfJson j, msgListOfJsonArr rest with
      | some m, some ms => some (m :: ms)
      | _, _ => none

/-- JSON image of the whole `messages` list. -/
def messagesToJson (msgs : List Msg) : Json :=
  Json.arr (msgs.map msgToJson)

/-- Typed readback of the whole `messages` list. -/
def messagesOfJson : Json → Option (List Msg)
  | Json.arr xs => msgListOfJsonArr xs
  | _ => none

lemma msgOfJson_msgToJson (m : Msg) : msgOfJson (msgToJson m) = some m := by
  obtain ⟨i, c, v, t, lang, err⟩ := m
  cases v <;> cases lang <;> cases err <;> rfl

lemma msgListOfJsonArr_map (msgs : List Msg) :
    msgListOfJsonArr (msgs.map msgToJson) = some msgs := by
  induction msgs with
  | nil => rfl
  | cons m rest ih => simp [msgListOfJsonArr, msgOfJson_msgToJson, ih]

/-! ### Local storage

Local storage is a key-value map. A stored value is either a raw string
(the input draft) or a JSON blob (the serialised chat history). -/

inductive StoredVal where
  | raw (s : String)
  | jsonVal (j : Json)

def setKV (kvs : List (String × StoredVal)) (k : String) (v : StoredVal) :
    List (String × StoredVal) :=
  match kvs with
  | [] => [(k, v)]
  | (k', v') :: rest => if k' = k then (k, v) :: rest else (k', v') :: setKV rest k v

def lookupKV (kvs : List (String × StoredVal)) (k : String) : Option StoredVal :=
  match kvs with
  | [] => none
  | (k', v') :: rest => if k' = k then some v' else lookupKV rest k

lemma lookupKV_setKV_self (kvs : List (String × StoredVal)) (k : String) (v : StoredVal) :
    lookupKV (setKV kvs k v) k = some v := by
  induction kvs with
  | nil => simp [setKV, lookupKV]
  | cons kv rest ih =>
      obtain ⟨k', v'⟩ := kv
      by_cases h : k' = k <;> simp [setKV, lookupKV, h, ih]

lemma lookupKV_setKV_ne (kvs : List (String × StoredVal)) (k k' : String)
    (v : StoredVal) (h : k' ≠ k) :
    lookupKV (setKV kvs k' v) k = lookupKV kvs k := by
  induction kvs with
  | nil => simp [setKV, lookupKV, h]
  | cons kv rest ih =>
      obtain ⟨k0, v0⟩ := kv
      by_cases h0 : k0 = k'
      · subst h0
        simp [setKV, lookupKV, h]
      · by_cases h1 : k0 = k <;>
          simp [setKV, lookupKV, h0, h1, ih, Ne.symm h]

/-- Local storage key holding the serialised chat history. -/
def STORAGE_KEY : String := "chat-history"

/-- Local storage key holding the input draft. -/
def DRAFT_KEY : String := "chat-draft"

/-! ### Translation-chat view state (`src/routes/test/+page.svelte`) -/

/-- Result shape of the `translate` remote command. -/
structure TranslationResponse where
  language : String
  translation : String
deriving DecidableEq, Repr

/-- Remote commands issued by the translation chat. -/
inductive TestCmd where
  | translate (text : String)
deriving DecidableEq, Repr

/-- View state of the translation chat, together with the local storage map
it reads and writes. -/
structure TestState where
  userMessage : String
  messages : List Msg
  isTyping : Int
  isLoaded : Bool
  storage : List (String × StoredVal)

/-- The message `processBotResponse` pushes for a given `translate` outcome:
a translation bubble on success, an error bubble on failure. `newId` models
`crypto.randomUUID()` and `ts` models `formatTime(new Date())`. -/
def recvMsg (r : Except String TranslationResponse) (newId ts : String) : Msg :=
  match r with
  | Except.ok result => ⟨newId, result.translation, Variant.received, ts, some result.language, none⟩
  | Except.error err =>
      ⟨newId, "Translation error: " ++ err, Variant.received, ts, none, some true⟩

/-- `processBotResponse` after its awaited `translate` call has finished with
outcome `r`: exactly one `received` message is appended; the `isTyping`
counter is incremented on entry and decremented in `finally`, a net no-op. -/
def processBotResponse (s : TestState) (r : Except String TranslationResponse)
    (newId ts : String) : TestState :=
  { s with messages := s.messages ++ [recvMsg r newId ts] }

/-- Characters removed by `String.prototype.trim`. -/
def trimChars (cs : List Char) : List Char :=
  ((cs.dropWhile Char.isWhitespace).reverse.dropWhile Char.isWhitespace).reverse

/-- Model of the JavaScript `.trim()` on strings. -/
def jsTrim (s : String) : String := ⟨trimChars s.data⟩

lemma trimChars_eq_nil (cs : List Char) (h : ∀ c ∈ cs, c.isWhitespace = true) :
    trimChars cs = [] := by
  unfold trimChars
  rw [List.dropWhile_eq_nil_iff.mpr h]
  rfl

/-- `handleSendMessage`: trims the input; a blank input is an early return;
otherwise the trimmed text is appended as a `sent` message, the input is
cleared, and one `translate` command is issued. -/
def handleSendMessage (s : TestState) (newId ts : String) : TestState × List TestCmd :=
  let trimmedMessage := jsTrim s.userMessage
  if trimmedMessage = "" then (s, [])
  else
    ({ s with
        messages := s.messages ++ [⟨newId, trimmedMessage, Variant.sent, ts, none, none⟩],
        userMessage := "" },
     [TestCmd.translate trimmedMessage])

/-- The `$effect` that, once `isLoaded`, writes the serialised `messages`
under `STORAGE_KEY` and the raw draft under `DRAFT_KEY`. -/
def persistEffect (s : TestState) : TestState :=
  if s.isLoaded then
    { s with
        storage :=
          setKV (setKV s.storage STORAGE_KEY (StoredVal.jsonVal (messagesToJson s.messages)))
            DRAFT_KEY (StoredVal.raw s.userMessage) }
  else s

/-- `onMount` of the translation chat, after `JSON.parse`: `restored` is the
successfully parsed history blob (if any), `draft` the saved draft. Sets the
state, then the recovery check: if the last restored message is a `sent`
message the bot owes a reply, so one `translate` command for its content is
issued; otherwise none. -/
def onMountTest (s0 : TestState) (restored : Option (List Msg))
    (draft : Option String) : TestState × List TestCmd :=
  let s1 := match restored with
    | some msgs => { s0 with messages := msgs }
    | none => s0
  let s2 := match draft with
    | some d => { s1 with userMessage := d }
    | none => s1
  let s3 := { s2 with isLoaded := true }
  let cmds := match s3.messages.getLast? with
    | some lastMsg =>
        if lastMsg.variant = Variant.sent then [TestCmd.translate lastMsg.content] else []
    | none => []
  (s3, cmds)

/-! ### The message store (`src/lib/stores/chat.ts`) -/

/-- The `sender` union type `'user' | 'bot'` of a store message. -/
inductive Sender where
  | user
  | bot
deriving DecidableEq, Repr

/-- The `Message` record of the `chatHistory` store. -/
structure StoreMessage where
  id : Nat
  content : String
  sender : Sender
  timestamp : String
deriving DecidableEq, Repr

/-- State owned by `chat.ts`: the `chatHistory` store, the module-level
`messageIdCounter`, and (for persistence claims) the local storage map,
which this module never touches. -/
structure ChatStoreState where
  history : List StoreMessage
  messageIdCounter : Nat
  storage : List (String × StoredVal)

/-- `addMessage`: appends a fresh message with the next id to the store. -/
def addMessage (st : ChatStoreState) (content : String) (sender : Sender)
    (now : String) : ChatStoreState :=
  { st with
      history := st.history ++ [⟨st.messageIdCounter, content, sender, now⟩],
      messageIdCounter := st.messageIdCounter + 1 }

/-! ### Bot-setup wizard (`src/routes/bot/+page.svelte`)

The wizard is a single-threaded event-driven component. Each remote call or
push event is modelled as a `BotEvent` carrying the outcome of the awaited
remote command; `stepBot` applies the corresponding handler when the control
that triggers it is rendered (the render guards of the markup). Subscription
handles created by `listen` are numbered; `active` is the list of currently
registered subscriptions and `released` the handles whose unlisten function
has been invoked. -/

/-- Payload of the `chat-event` push event. -/
structure ChatLog where
  user : String
  message : String
  timestamp : String
deriving DecidableEq, Repr

/-- Remote commands invoked by the bot page. -/
inductive BotCmd where
  | check_auth_status
  | is_in_channel
  | get_token
  | wait_for_token
  | join_channel
  | leave_channel
deriving DecidableEq, Repr

/-- View state of the bot page, plus the subscription bookkeeping and the
local storage map (which this page never touches). -/
structure BotState where
  step : Nat
  isLoading : Bool
  isSubmitting : Bool
  errorMessage : String
  clientId : String
  broadcasterLogin : String
  authUrl : String
  chatLogs : List ChatLog
  unlisten : Option Nat
  nextHandle : Nat
  active : List Nat
  released : List Nat
  storage : List (String × StoredVal)

def initBot : BotState :=
  ⟨1, true, false, "", "", "", "", [], none, 0, [], [], []⟩

/-- `startChatListener`: invokes and forgets any existing unlisten handle,
then registers a fresh `chat-event` subscription. -/
def startChatListener (s : BotState) : BotState :=
  let s1 := match s.unlisten with
    | some h => { s with active := s.active.erase h, released := s.released ++ [h] }
    | none => s
  { s1 with
      unlisten := some s1.nextHandle,
      active := s1.active ++ [s1.nextHandle],
      nextHandle := s1.nextHandle + 1 }

/-- `arr.slice(-n)`: the at most `n` last elements of a list. -/
def lastN (n : Nat) (l : List α) : List α := l.drop (l.length - n)

/-- The `chat-event` callback: `chatLogs = [...chatLogs, event.payload].slice(-50)`. -/
def chatEventHandler (s : BotState) (payload : ChatLog) : BotState :=
  { s with chatLogs := lastN 50 (s.chatLogs ++ [payload]) }

/-- `onMount` after its awaited status checks have finished: on success the
pair is (`check_auth_status` result, `is_in_channel` result); an already
active channel re-attaches the listener and shows the chat screen. The catch
branch only logs to the console. `isLoading` is cleared in `finally`. -/
def onMountResult (s : BotState) (r : Except String (Bool × Bool)) : BotState :=
  match r with
  | Except.ok (isValid, alreadyActive) =>
      if isValid then
        if alreadyActive then { startChatListener s with step := 5, isLoading := false }
        else { s with step := 3, isLoading := false }
      else { s with isLoading := false }
  | Except.error _ => { s with isLoading := false }

/-- `handleCredentialsSubmit` after its awaited `get_token` call has finished:
on success the auth URL is stored, the wizard moves to step 2 and
`beginPollingForToken` issues `wait_for_token`; on failure the error is
shown. `isSubmitting` is cleared in `finally`. -/
def handleCredentialsSubmit (s : BotState) (r : Except String String) :
    BotState × List BotCmd :=
  match r with
  | Except.ok url =>
      ({ s with errorMessage := "", authUrl := url, step := 2, isSubmitting := false },
       [BotCmd.wait_for_token])
  | Except.error err =>
      ({ s with errorMessage := err, isSubmitting := false }, [])

/-- `beginPollingForToken` after its awaited `wait_for_token` call has
finished: success moves to step 3; failure sets the fixed error banner text
and returns to step 1, issuing nothing further. -/
def beginPollingForToken (s : BotState) (r : Except String Unit) :
    BotState × List BotCmd :=
  match r with
  | Except.ok _ => ({ s with step := 3 }, [])
  | Except.error _ =>
      ({ s with
          errorMessage := "Authorization timed out or failed. Please try again.",
          step := 1 }, [])

/-- `handleJoinChannel` after its awaited `join_channel` call has finished:
the listener is attached (by `startChatListener`) before the join is awaited,
so it is attached on both outcomes; success moves to step 5, failure shows
the error. `isSubmitting` is cleared in `finally`. -/
def handleJoinChannel (s : BotState) (r : Except String Unit) : BotState :=
  let s1 := startChatListener s
  match r with
  | Except.ok _ => { s1 with step := 5, errorMessage := "", isSubmitting := false }
  | Except.error err => { s1 with errorMessage := err, isSubmitting := false }

/-- `handleDisconnect`: the `leave_channel` outcome is only logged on
failure; the `finally` block unconditionally moves to step 4, clears the
chat log, and invokes and clears the unlisten handle when present. -/
def handleDisconnect (s : BotState) (_r : Except String Unit) : BotState :=
  let s1 := { s with step := 4, chatLogs := ([] : List ChatLog) }
  match s1.unlisten with
  | some h =>
      { s1 with unlisten := none, active := s1.active.erase h, released := s1.released ++ [h] }
  | none => s1

/-- `onDestroy`: invokes the unlisten handle when present (without clearing
the variable; the component is gone afterwards). -/
def onDestroy (s : BotState) : BotState :=
  match s.unlisten with
  | some h => { s with active := s.active.erase h, released := s.released ++ [h] }
  | none => s

/-- `resetFlow` (Configure different account). -/
def resetFlow (s : BotState) : BotState :=
  { s with step := 1, errorMessage := "", clientId := "" }

/-- One occurrence in the event loop: either a remote call completing with
its outcome, a pure user action, a push event, or the view being destroyed. -/
inductive BotEvent where
  | mountDone (r : Except String (Bool × Bool))
  | credsDone (r : Except String String)
  | waitTokenDone (r : Except String Unit)
  | cancelClick
  | connectStreamClick
  | resetClick
  | typeClientId (v : String)
  | typeBroadcaster (v : String)
  | joinDone (r : Except String Unit)
  | disconnectClick (r : Except String Unit)
  | chatEvent (payload : ChatLog)
  | destroy

/-- Dispatch one event, guarded by where the triggering control is rendered
(forms at their step, the chat callback only while subscribed, mount only
while loading). Returns the new state and the follow-up remote commands the
handler issues after the event's own outcome is known. -/
def stepBot (e : BotEvent) (s : BotState) : BotState × List BotCmd :=
  match e with
  | BotEvent.mountDone r => if s.isLoading then (onMountResult s r, []) else (s, [])
  | BotEvent.credsDone r =>
      if s.step = 1 ∧ s.isLoading = false then handleCredentialsSubmit s r else (s, [])
  | BotEvent.waitTokenDone r => beginPollingForToken s r
  | BotEvent.cancelClick => (if s.step = 2 then { s with step := 1 } else s, [])
  | BotEvent.connectStreamClick => (if s.step = 3 then { s with step := 4 } else s, [])
  | BotEvent.resetClick => (if s.step = 3 then resetFlow s else s, [])
  | BotEvent.typeClientId v => (if s.step = 1 then { s with clientId := v } else s, [])
  | BotEvent.typeBroadcaster v =>
      (if s.step = 4 then { s with broadcasterLogin := v } else s, [])
  | BotEvent.joinDone r => (if s.step = 4 then handleJoinChannel s r else s, [])
  | BotEvent.disconnectClick r => (if s.step = 5 then handleDisconnect s r else s, [])
  | BotEvent.chatEvent p => (if s.unlisten.isSome then chatEventHandler s p else s, [])
  | BotEvent.destroy => (onDestroy s, [])

/-- A run of the wizard from its initial state. -/
def runBot (evs : List BotEvent) : BotState :=
  evs.foldl (fun s e => (stepBot e s).1) initBot

/-- Events that are the resolution (success) of a remote command. -/
def isResolvedRemote : BotEvent → Bool
  | BotEvent.mountDone (Except.ok _) => true
  | BotEvent.credsDone (Except.ok _) => true
  | BotEvent.waitTokenDone (Except.ok _) => true
  | BotEvent.joinDone (Except.ok _) => true
  | BotEvent.disconnectClick (Except.ok _) => true
  | _ => false

/-- Events that are the failure (rejection) of a remote command. -/
def isFailureEvent : BotEvent → Bool
  | BotEvent.mountDone (Except.error _) => true
  | BotEvent.credsDone (Except.error _) => true
  | BotEvent.waitTokenDone (Except.error _) => true
  | BotEvent.joinDone (Except.error _) => true
  | BotEvent.disconnectClick (Except.error _) => true
  | _ => false

/-- Run induction: a property of the initial state preserved by every event
holds in every reachable state. -/
lemma runBot_inv (P : BotState → Prop) (h0 : P initBot)
    (hstep : ∀ e s, P s → P (stepBot e s).1) (evs : List BotEvent) :
    P (runBot evs) := by
  suffices haux : ∀ (l : List BotEvent) (s : BotState),
      P s → P (l.foldl (fun s e => (stepBot e s).1) s) by
    exact haux evs initBot h0
  intro l
  induction l with
  | nil => intro s hs; exact hs
  | cons e rest ih => intro s hs; exact ih _ (hstep e s hs)

/-- Subscription bookkeeping invariant: the registered subscriptions are
exactly the stored unlisten handle, except after `onDestroy` (which releases
the subscription without clearing the variable), where none are registered. -/
def InvBot (s : BotState) : Prop :=
  s.active = s.unlisten.toList ∨ s.active = []

lemma startChatListener_active (s : BotState) (h : InvBot s) :
    (startChatListener s).active = [(startChatListener s).nextHandle - 1] ∧
    (startChatListener s).unlisten = some ((startChatListener s).nextHandle - 1) := by
  unfold startChatListener
  cases hu : s.unlisten with
  | none =>
      have ha : s.active = [] := by
        rcases h with h | h
        · rw [h, hu]; rfl
        · exact h
      simp [ha]
  | some h0 =>
      have ha : s.active.erase h0 = [] := by
        rcases h with h | h
        · rw [h, hu]; simp [Option.toList]
        · rw [h]; rfl
      simp [ha]

lemma invBot_startChatListener (s : BotState) (h : InvBot s) :
    InvBot (startChatListener s) := by
  rcases startChatListener_active s h with ⟨ha, hu⟩
  left
  rw [ha, hu]
  rfl

lemma invBot_step (e : BotEvent) (s : BotState) (h : InvBot s) :
    InvBot (stepBot e s).1 := by
  have herase : s.unlisten = none → s.active = [] ∨ s.active = [] → True := fun _ _ => trivial
  cases e with
  | mountDone r =>
      cases r with
      | ok p =>
          obtain ⟨isValid, alreadyActive⟩ := p
          by_cases hl : s.isLoading <;>
            by_cases hv : isValid <;>
              by_cases hA : alreadyActive <;>
                simp only [stepBot, onMountResult, hl, hv, hA, if_true, if_false,
                  Bool.false_eq_true, ite_true, ite_false] <;>
                first
                  | exact h
                  | (rcases invBot_startChatListener s h with h' | h' <;>
                      [left; right] <;> simpa using h')
      | error _ =>
          by_cases hl : s.isLoading <;>
            simp only [stepBot, onMountResult, hl, ite_true, ite_false] <;> exact h
  | credsDone r =>
      by_cases hg : s.step = 1 ∧ s.isLoading = false
      · cases r with
        | ok url => simpa [stepBot, handleCredentialsSubmit, hg] using h
        | error err => simpa [stepBot, handleCredentialsSubmit, hg] using h
      · simpa [stepBot, hg] using h
  | waitTokenDone r =>
      cases r with
      | ok u => simpa [stepBot, beginPollingForToken] using h
      | error err => simpa [stepBot, beginPollingForToken] using h
  | cancelClick => by_cases hg : s.step = 2 <;> simpa [stepBot, hg] using h
  | connectStreamClick => by_cases hg : s.step = 3 <;> simpa [stepBot, hg] using h
  | resetClick => by_cases hg : s.step = 3 <;> simpa [stepBot, resetFlow, hg] using h
  | typeClientId v => by_cases hg : s.step = 1 <;> simpa [stepBot, hg] using h
  | typeBroadcaster v => by_cases hg : s.step = 4 <;> simpa [stepBot, hg] using h
  | joinDone r =>
      by_cases hg : s.step = 4
      · have h' := invBot_startChatListener s h
        cases r with
        | ok u =>
            rcases h' with h' | h' <;>
              simp only [stepBot, handleJoinChannel, hg, ite_true, InvBot] <;>
              [left; right] <;> simpa using h'
        | error err =>
            rcases h' with h' | h' <;>
              simp only [stepBot, handleJoinChannel, hg, ite_true, InvBot] <;>
              [left; right] <;> simpa using h'
      · simpa [stepBot, hg] using h
  | disconnectClick r =>
      by_cases hg : s.step = 5
      · simp only [stepBot, handleDisconnect, hg, ite_true]
        cases hu : s.unlisten with
        | none =>
            left
            have ha : s.active = [] := by
              rcases h with h | h
              · rw [h, hu]; rfl
              · exact h
            simpa [hu] using ha
        | some h0 =>
            left
            have ha : s.active.erase h0 = [] := by
              rcases h with h | h
              · rw [h, hu]; simp [Option.toList]
              · rw [h]; rfl
            simpa [hu] using ha
      · simpa [stepBot, hg] using h
  | chatEvent p =>
      by_cases hg : s.unlisten.isSome <;> simpa [stepBot, chatEventHandler, hg] using h
  | destroy =>
      simp only [stepBot, onDestroy]
      cases hu : s.unlisten with
      | none =>
          have ha : s.active = [] := by
            rcases h with h | h
            · rw [h, hu]; rfl
            · exact h
          right; simpa using ha
      | some h0 =>
          have ha : s.active.erase h0 = [] := by
            rcases h with h | h
            · rw [h, hu]; simp [Option.toList]
            · rw [h]; rfl
          right; simpa using ha

lemma invBot_run (evs : List BotEvent) : InvBot (runBot evs) :=
  runBot_inv InvBot (Or.inl rfl) invBot_step evs

lemma step_ge_one_step (e : BotEvent) (s : BotState) (h : 1 ≤ s.step) :
    1 ≤ (stepBot e s).1.step := by
  cases e with
  | mountDone r =>
      cases r with
      | ok p =>
          obtain ⟨isValid, alreadyActive⟩ := p
          by_cases hl : s.isLoading <;>
            by_cases hv : isValid <;>
              by_cases hA : alreadyActive <;>
                simp [stepBot, onMountResult, hl, hv, hA, startChatListener] <;>
                omega
      | error _ =>
          by_cases hl : s.isLoading <;> simp [stepBot, onMountResult, hl] <;> omega
  | credsDone r =>
      by_cases hg : s.step = 1 ∧ s.isLoading = false
      · cases r with
        | ok url => simp [stepBot, handleCredentialsSubmit, hg]
        | error err => simp [stepBot, handleCredentialsSubmit, hg]
      · simpa [stepBot, hg] using h
  | waitTokenDone r =>
      cases r with
      | ok u => simp [stepBot, beginPollingForToken]
      | error err => simp [stepBot, beginPollingForToken]
  | cancelClick =>
      by_cases hg : s.step = 2
      · simp [stepBot, hg]
      · simpa [stepBot, hg] using h
  | connectStreamClick =>
      by_cases hg : s.step = 3
      · simp [stepBot, hg]
      · simpa [stepBot, hg] using h
  | resetClick =>
      by_cases hg : s.step = 3
      · simp [stepBot, resetFlow, hg]
      · simpa [stepBot, hg] using h
  | typeClientId v =>
      by_cases hg : s.step = 1
      · simp [stepBot, hg]
      · simpa [stepBot, hg] using h
  | typeBroadcaster v =>
      by_cases hg : s.step = 4
      · simp [stepBot, hg]
      · simpa [stepBot, hg] using h
  | joinDone r =>
      by_cases hg : s.step = 4
      · cases r with
        | ok u => simp [stepBot, handleJoinChannel, hg, startChatListener]
        | error err =>
            simp only [stepBot, handleJoinChannel, hg, ite_true, startChatListener]
            cases s.unlisten <;> simp [hg]
      · simpa [stepBot, hg] using h
  | disconnectClick r =>
      by_cases hg : s.step = 5
      · simp only [stepBot, handleDisconnect, hg, ite_true]
        cases s.unlisten <;> simp
      · simpa [stepBot, hg] using h
  | chatEvent p =>
      by_cases hg : s.unlisten.isSome <;> simpa [stepBot, chatEventHandler, hg] using h
  | destroy =>
      simp only [stepBot, onDestroy]
      cases s.unlisten <;> simpa using h

lemma step_ge_one (evs : List BotEvent) : 1 ≤ (runBot evs).step :=
  runBot_inv (fun s => 1 ≤ s.step) (by simp [initBot]) step_ge_one_step evs

lemma active_erase_nil (s : BotState) (hinv : InvBot s) (h0 : Nat)
    (hu : s.unlisten = some h0) : s.active.erase h0 = [] := by
  rcases hinv with h | h
  · rw [h, hu]
    simp [Option.toList]
  · rw [h]
    rfl

lemma active_nil_of_none (s : BotState) (hinv : InvBot s) (hu : s.unlisten = none) :
    s.active = [] := by
  rcases hinv with h | h
  · rw [h, hu]
    rfl
  · exact h

lemma storage_stepBot (e : BotEvent) (b : BotState) :
    (stepBot e b).1.storage = b.storage := by
  cases e with
  | mountDone r =>
      cases r with
      | ok p =>
          obtain ⟨isValid, alreadyActive⟩ := p
          by_cases hl : b.isLoading <;>
            by_cases hv : isValid <;>
              by_cases hA : alreadyActive <;>
                (simp only [stepBot, onMountResult, hl, hv, hA, if_true, if_false,
                  Bool.false_eq_true, ite_true, ite_false, startChatListener];
                 try (cases b.unlisten <;> rfl))
      | error _ => by_cases hl : b.isLoading <;> simp [stepBot, onMountResult, hl]
  | credsDone r =>
      by_cases hg : b.step = 1 ∧ b.isLoading = false
      · cases r with
        | ok url => simp [stepBot, handleCredentialsSubmit, hg]
        | error err => simp [stepBot, handleCredentialsSubmit, hg]
      · simp [stepBot, hg]
  | waitTokenDone r => cases r <;> simp [stepBot, beginPollingForToken]
  | cancelClick => by_cases hg : b.step = 2 <;> simp [stepBot, hg]
  | connectStreamClick => by_cases hg : b.step = 3 <;> simp [stepBot, hg]
  | resetClick => by_cases hg : b.step = 3 <;> simp [stepBot, resetFlow, hg]
  | typeClientId v => by_cases hg : b.step = 1 <;> simp [stepBot, hg]
  | typeBroadcaster v => by_cases hg : b.step = 4 <;> simp [stepBot, hg]
  | joinDone r =>
      by_cases hg : b.step = 4
      · cases r <;>
          simp only [stepBot, handleJoinChannel, hg, ite_true, startChatListener] <;>
            cases b.unlisten <;> rfl
      · simp [stepBot, hg]
  | disconnectClick r =>
      by_cases hg : b.step = 5
      · simp only [stepBot, handleDisconnect, hg, ite_true]
        cases b.unlisten <;> rfl
      · simp [stepBot, hg]
  | chatEvent p =>
      by_cases hg : b.unlisten.isSome <;> simp [stepBot, chatEventHandler, hg]
  | destroy =>
      simp only [stepBot, onDestroy]
      cases b.unlisten <;> rfl

lemma step_no_advance (e : BotEvent) (s : BotState) (hge : 1 ≤ s.step)
    (h1 : isResolvedRemote e = false) (h2 : e ≠ BotEvent.connectStreamClick) :
    (stepBot e s).1.step ≤ s.step := by
  cases e with
  | mountDone r =>
      cases r with
      | ok p => simp [isResolvedRemote] at h1
      | error _ => by_cases hl : s.isLoading <;> simp [stepBot, onMountResult, hl]
  | credsDone r =>
      cases r with
      | ok url => simp [isResolvedRemote] at h1
      | error err =>
          by_cases hg : s.step = 1 ∧ s.isLoading = false
          · simp [stepBot, handleCredentialsSubmit, hg]
          · simp [stepBot, hg]
  | waitTokenDone r =>
      cases r with
      | ok u => simp [isResolvedRemote] at h1
      | error err => simpa [stepBot, beginPollingForToken] using hge
  | cancelClick =>
      by_cases hg : s.step = 2
      · simp [stepBot, hg]
      · simp [stepBot, hg]
  | connectStreamClick => exact absurd rfl h2
  | resetClick =>
      by_cases hg : s.step = 3
      · simp [stepBot, resetFlow, hg]
      · simp [stepBot, hg]
  | typeClientId v => by_cases hg : s.step = 1 <;> simp [stepBot, hg]
  | typeBroadcaster v => by_cases hg : s.step = 4 <;> simp [stepBot, hg]
  | joinDone r =>
      cases r with
      | ok u => simp [isResolvedRemote] at h1
      | error err =>
          by_cases hg : s.step = 4
          · simp only [stepBot, handleJoinChannel, hg, ite_true, startChatListener]
            cases s.unlisten <;> simp [hg]
          · simp [stepBot, hg]
  | disconnectClick r =>
      cases r with
      | ok u => simp [isResolvedRemote] at h1
      | error err =>
          by_cases hg : s.step = 5
          · simp only [stepBot, handleDisconnect, hg, ite_true]
            cases s.unlisten <;> simp [hg]
          · simp [stepBot, hg]
  | chatEvent p =>
      by_cases hg : s.unlisten.isSome <;> simp [stepBot, chatEventHandler, hg]
  | destroy =>
      simp only [stepBot, onDestroy]
      cases s.unlisten <;> simp

/-! ### Claims -/

/-- C7: serialising a list of translation-chat messages to local storage and
restoring it on mount yields a list equal to the original; no field value
(id, content, variant, timestamp, language, isError) is lost or altered. -/
theorem c7_history_roundtrip (msgs : List Msg) :
    messagesOfJson (messagesToJson msgs) = some msgs := by
  simp [messagesToJson, messagesOfJson, msgListOfJsonArr_map]

/-- C9: submitting the translation-chat send form with an input that is empty
or consists only of whitespace is a complete no-op: the state (messages list
included) is unchanged, no translate command is issued, and the persisted
chat-history blob is unchanged. -/
theorem c9_blank_input_noop (s : TestState) (newId ts : String)
    (h : ∀ c ∈ s.userMessage.data, c.isWhitespace = true) :
    handleSendMessage s newId ts = (s, []) ∧
    persistEffect (handleSendMessage s newId ts).1 = persistEffect s := by
  have ht : jsTrim s.userMessage = "" := by
    unfold jsTrim
    rw [trimChars_eq_nil s.userMessage.data h]
  have h1 : handleSendMessage s newId ts = (s, []) := by
    simp [handleSendMessage, ht]
  exact ⟨h1, by rw [h1]⟩

/-- Witness for C9 at the one-space input. -/
theorem c9_blank_input_noop_witness :
    handleSendMessage ⟨" ", [], 0, true, []⟩ "id1" "12:00" = (⟨" ", [], 0, true, []⟩, []) ∧
    persistEffect (handleSendMessage ⟨" ", [], 0, true, []⟩ "id1" "12:00").1 =
      persistEffect ⟨" ", [], 0, true, []⟩ :=
  c9_blank_input_noop ⟨" ", [], 0, true, []⟩ "id1" "12:00" (by decide)

/-- C10: on mount of the translation chat, if the restored history is
non-empty and its last message is a `sent` message, exactly one translate
command for that content is issued, and handling its outcome appends exactly
one `received` message (a translation on success, an error bubble on
failure); if the history is empty or its last message is not `sent`, no
command is issued on mount. -/
theorem c10_mount_recovery (s0 : TestState) (msgs : List Msg) (draft : Option String) :
    (∀ m, msgs.getLast? = some m → m.variant = Variant.sent →
        (onMountTest s0 (some msgs) draft).2 = [TestCmd.translate m.content] ∧
        ∀ r newId ts,
          (processBotResponse (onMountTest s0 (some msgs) draft).1 r newId ts).messages =
              msgs ++ [recvMsg r newId ts] ∧
            (recvMsg r newId ts).variant = Variant.received ∧
            ((recvMsg r newId ts).isError = some true ↔ ∃ e, r = Except.error e)) ∧
    (msgs = [] → (onMountTest s0 (some msgs) draft).2 = []) ∧
    (∀ m, msgs.getLast? = some m → m.variant ≠ Variant.sent →
        (onMountTest s0 (some msgs) draft).2 = []) := by
  have hmsgs : (onMountTest s0 (some msgs) draft).1.messages = msgs := by
    cases draft <;> rfl
  have hcmds : (onMountTest s0 (some msgs) draft).2 =
      (match msgs.getLast? with
        | some lastMsg =>
            if lastMsg.variant = Variant.sent then [TestCmd.translate lastMsg.content]
            else []
        | none => []) := by
    cases draft <;> rfl
  refine ⟨?_, ?_, ?_⟩
  · intro m hm hv
    constructor
    · rw [hcmds, hm]
      simp [hv]
    · intro r newId ts
      refine ⟨?_, ?_, ?_⟩
      · simp [processBotResponse, hmsgs]
      · cases r <;> rfl
      · cases r with
        | ok res => simp [recvMsg]
        | error e => simp [recvMsg]
  · intro hnil
    subst hnil
    rw [hcmds]
    rfl
  · intro m hm hv
    rw [hcmds, hm]
    simp [hv]

/-- Witness for C10 at a one-element restored history ending in a `sent`
message, with a failing translate call. -/
theorem c10_mount_recovery_witness :
    (onMountTest ⟨"", [], 0, false, []⟩
        (some [⟨"a", "hello", Variant.sent, "t", none, none⟩]) none).2 =
      [TestCmd.translate "hello"] ∧
    (processBotResponse
        (onMountTest ⟨"", [], 0, false, []⟩
          (some [⟨"a", "hello", Variant.sent, "t", none, none⟩]) none).1
        (Except.error "x") "b" "u").messages =
      [⟨"a", "hello", Variant.sent, "t", none, none⟩] ++ [recvMsg (Except.error "x") "b" "u"] := by
  have h := (c10_mount_recovery ⟨"", [], 0, false, []⟩
      [⟨"a", "hello", Variant.sent, "t", none, none⟩] none).1
      ⟨"a", "hello", Variant.sent, "t", none, none⟩ rfl rfl
  exact ⟨h.1, (h.2 (Except.error "x") "b" "u").1⟩

/-- C1: delivering one `chat-event` to the bot page's chat-event listener
appends the payload at the end and increases the length of `chatLogs` by
exactly one while the length is below 50; once the list holds 50 entries,
each further event keeps the length at 50 and drops the oldest entry
first. -/
theorem c1_chat_event_cap (s : BotState) (payload : ChatLog)
    (hl : s.unlisten.isSome = true) :
    (s.chatLogs.length < 50 →
        (stepBot (BotEvent.chatEvent payload) s).1.chatLogs = s.chatLogs ++ [payload] ∧
        (stepBot (BotEvent.chatEvent payload) s).1.chatLogs.length =
          s.chatLogs.length + 1) ∧
    (s.chatLogs.length = 50 →
        (stepBot (BotEvent.chatEvent payload) s).1.chatLogs =
            s.chatLogs.drop 1 ++ [payload] ∧
        (stepBot (BotEvent.chatEvent payload) s).1.chatLogs.length = 50) := by
  have hstep : (stepBot (BotEvent.chatEvent payload) s).1.chatLogs =
      lastN 50 (s.chatLogs ++ [payload]) := by
    simp [stepBot, hl, chatEventHandler]
  constructor
  · intro hlen
    have h0 : (s.chatLogs ++ [payload]).length - 50 = 0 := by
      simp only [List.length_append, List.length_cons, List.length_nil]
      omega
    have heq : (stepBot (BotEvent.chatEvent payload) s).1.chatLogs =
        s.chatLogs ++ [payload] := by
      rw [hstep]
      unfold lastN
      rw [h0, List.drop_zero]
    exact ⟨heq, by rw [heq]; simp⟩
  · intro hlen
    have h1 : (s.chatLogs ++ [payload]).length - 50 = 1 := by
      simp only [List.length_append, List.length_cons, List.length_nil]
      omega
    have heq : (stepBot (BotEvent.chatEvent payload) s).1.chatLogs =
        s.chatLogs.drop 1 ++ [payload] := by
      rw [hstep]
      unfold lastN
      rw [h1, List.drop_append_of_le_length (by omega)]
    refine ⟨heq, ?_⟩
    rw [heq]
    simp [hlen]

/-- Witness for C1: an empty log grows to one entry; a full log of 50
entries stays at 50 and loses its head. -/
theorem c1_chat_event_cap_witness :
    ((stepBot (BotEvent.chatEvent ⟨"v", "n", "s"⟩)
        ⟨5, false, false, "", "", "", "", [], some 0, 1, [0], [], []⟩).1.chatLogs =
      [] ++ [⟨"v", "n", "s"⟩]) ∧
    ((stepBot (BotEvent.chatEvent ⟨"v", "n", "s"⟩)
        ⟨5, false, false, "", "", "", "",
          List.replicate 50 ⟨"u", "m", "t"⟩, some 0, 1, [0], [], []⟩).1.chatLogs =
        (List.replicate 50 (⟨"u", "m", "t"⟩ : ChatLog)).drop 1 ++ [⟨"v", "n", "s"⟩] ∧
      (stepBot (BotEvent.chatEvent ⟨"v", "n", "s"⟩)
        ⟨5, false, false, "", "", "", "",
          List.replicate 50 ⟨"u", "m", "t"⟩, some 0, 1, [0], [], []⟩).1.chatLogs.length = 50) := by
  have hA := (c1_chat_event_cap
      ⟨5, false, false, "", "", "", "", [], some 0, 1, [0], [], []⟩
      ⟨"v", "n", "s"⟩ rfl).1 (by simp)
  have hB := (c1_chat_event_cap
      ⟨5, false, false, "", "", "", "",
        List.replicate 50 ⟨"u", "m", "t"⟩, some 0, 1, [0], [], []⟩
      ⟨"v", "n", "s"⟩ rfl).2 (by simp)
  exact ⟨hA.1, hB⟩

/-- C2 counterexample: from the reachable step-3 screen, clicking the
Connect-to-a-stream button advances the wizard to step 4 although the click
is not the resolution of any remote call. The claim that the step value
never advances without a resolved remote call is therefore false. -/
theorem c2_counterexample :
    isResolvedRemote BotEvent.connectStreamClick = false ∧
    (runBot [BotEvent.mountDone (Except.ok (true, false))]).step = 3 ∧
    (stepBot BotEvent.connectStreamClick
        (runBot [BotEvent.mountDone (Except.ok (true, false))])).1.step = 4 :=
  ⟨rfl, rfl, rfl⟩

/-- C2 amended: in every reachable execution, the step value never advances
except as a direct consequence of a resolved remote call or of the
Connect-to-a-stream button click (which moves the step-3 screen to the
step-4 form). -/
theorem c2_amended_no_advance (evs : List BotEvent) (e : BotEvent)
    (h1 : isResolvedRemote e = false) (h2 : e ≠ BotEvent.connectStreamClick) :
    (stepBot e (runBot evs)).1.step ≤ (runBot evs).step :=
  step_no_advance e (runBot evs) (step_ge_one evs) h1 h2

/-- Witness for C2 amended: cancelling from the initial state does not
advance the step. -/
theorem c2_amended_no_advance_witness :
    (stepBot BotEvent.cancelClick (runBot [])).1.step ≤ (runBot []).step :=
  c2_amended_no_advance [] BotEvent.cancelClick rfl
    (by intro h; exact BotEvent.noConfusion h)

/-- C3: triggering the disconnect action, whether `leave_channel` resolves
or fails, leaves `chatLogs` empty, clears the stored unlisten handle, and
invokes the unlisten function of any subscription that was held. -/
theorem c3_disconnect_clears (s : BotState) (r : Except String Unit) :
    (handleDisconnect s r).chatLogs = [] ∧
    (handleDisconnect s r).unlisten = none ∧
    ∀ h, s.unlisten = some h → h ∈ (handleDisconnect s r).released := by
  unfold handleDisconnect
  cases hu : s.unlisten with
  | none => simp [hu]
  | some h0 => simp [hu]

/-- Witness for C3: a connected state with handle 3 and a failing
`leave_channel` call. -/
theorem c3_disconnect_clears_witness :
    (handleDisconnect
        ⟨5, false, false, "", "", "", "", [⟨"u", "m", "t"⟩], some 3, 4, [3], [], []⟩
        (Except.error "boom")).chatLogs = [] ∧
    (handleDisconnect
        ⟨5, false, false, "", "", "", "", [⟨"u", "m", "t"⟩], some 3, 4, [3], [], []⟩
        (Except.error "boom")).unlisten = none ∧
    (3 : Nat) ∈ (handleDisconnect
        ⟨5, false, false, "", "", "", "", [⟨"u", "m", "t"⟩], some 3, 4, [3], [], []⟩
        (Except.error "boom")).released := by
  have h := c3_disconnect_clears
      ⟨5, false, false, "", "", "", "", [⟨"u", "m", "t"⟩], some 3, 4, [3], [], []⟩
      (Except.error "boom")
  exact ⟨h.1, h.2.1, h.2.2 3 rfl⟩

/-- C4: a failure of `wait_for_token` returns the wizard to step 1 with an
error message set and issues no further command; no failure of any remote
command makes a handler issue a follow-up command (nothing is retried
automatically). -/
theorem c4_no_retry_on_failure (s : BotState) (e : BotEvent) (err : String)
    (hf : isFailureEvent e = true) :
    (stepBot e s).2 = [] ∧
    (beginPollingForToken s (Except.error err)).1.step = 1 ∧
    (beginPollingForToken s (Except.error err)).1.errorMessage ≠ "" ∧
    (beginPollingForToken s (Except.error err)).2 = [] := by
  refine ⟨?_, rfl, by simp [beginPollingForToken], rfl⟩
  cases e with
  | mountDone r =>
      cases r with
      | ok p => simp [isFailureEvent] at hf
      | error _ => by_cases hl : s.isLoading <;> simp [stepBot, hl]
  | credsDone r =>
      cases r with
      | ok url => simp [isFailureEvent] at hf
      | error e =>
          by_cases hg : s.step = 1 ∧ s.isLoading = false <;>
            simp [stepBot, handleCredentialsSubmit, hg]
  | waitTokenDone r =>
      cases r with
      | ok u => simp [isFailureEvent] at hf
      | error e => simp [stepBot, beginPollingForToken]
  | cancelClick => simp [isFailureEvent] at hf
  | connectStreamClick => simp [isFailureEvent] at hf
  | resetClick => simp [isFailureEvent] at hf
  | typeClientId v => simp [isFailureEvent] at hf
  | typeBroadcaster v => simp [isFailureEvent] at hf
  | joinDone r =>
      cases r with
      | ok u => simp [isFailureEvent] at hf
      | error e => rfl
  | disconnectClick r =>
      cases r with
      | ok u => simp [isFailureEvent] at hf
      | error e => rfl
  | chatEvent p => simp [isFailureEvent] at hf
  | destroy => simp [isFailureEvent] at hf

/-- Witness for C4: a failed authorization wait in the initial state. -/
theorem c4_no_retry_on_failure_witness :
    (stepBot (BotEvent.waitTokenDone (Except.error "timeout")) initBot).2 = [] ∧
    (beginPollingForToken initBot (Except.error "timeout")).1.step = 1 ∧
    (beginPollingForToken initBot (Except.error "timeout")).1.errorMessage ≠ "" ∧
    (beginPollingForToken initBot (Except.error "timeout")).2 = [] :=
  c4_no_retry_on_failure initBot (BotEvent.waitTokenDone (Except.error "timeout"))
    "timeout" rfl

/-- C5 counterexample: the mount-time status check failure is a remote
command failure, yet it leaves the error banner empty (it is only logged to
the console), so not every remote command failure is shown to the user. -/
theorem c5_counterexample :
    isFailureEvent (BotEvent.mountDone (Except.error "network error")) = true ∧
    (stepBot (BotEvent.mountDone (Except.error "network error")) initBot).1.errorMessage
      = "" :=
  ⟨rfl, rfl⟩

/-- C5 amended: failures of `get_token`, `wait_for_token` and `join_channel`
set the bot page's error banner to a non-empty display string, and a
`translate` failure appends an inline error bubble; failures of the
mount-time status checks and of `leave_channel` set no user-visible error
state (their handlers leave the error banner unchanged). -/
theorem c5_amended_error_surfacing (s : BotState) (st : TestState)
    (err newId ts : String) (he : err ≠ "") :
    ((handleCredentialsSubmit s (Except.error err)).1.errorMessage = err ∧
      (handleCredentialsSubmit s (Except.error err)).1.errorMessage ≠ "") ∧
    (beginPollingForToken s (Except.error err)).1.errorMessage ≠ "" ∧
    ((handleJoinChannel s (Except.error err)).errorMessage = err ∧
      (handleJoinChannel s (Except.error err)).errorMessage ≠ "") ∧
    (processBotResponse st (Except.error err) newId ts).messages =
        st.messages ++
          [⟨newId, "Translation error: " ++ err, Variant.received, ts, none, some true⟩] ∧
    (onMountResult s (Except.error err)).errorMessage = s.errorMessage ∧
    (handleDisconnect s (Except.error err)).errorMessage = s.errorMessage := by
  have hjoin : (handleJoinChannel s (Except.error err)).errorMessage = err := by
    unfold handleJoinChannel startChatListener
    cases s.unlisten <;> rfl
  have hdisc : (handleDisconnect s (Except.error err)).errorMessage = s.errorMessage := by
    unfold handleDisconnect
    cases s.unlisten <;> rfl
  refine ⟨⟨rfl, by simpa using he⟩, by simp [beginPollingForToken], ⟨hjoin, ?_⟩,
    rfl, rfl, hdisc⟩
  rw [hjoin]
  exact he

/-- Witness for C5 amended at a concrete non-empty error string. -/
theorem c5_amended_error_surfacing_witness :
    ((handleCredentialsSubmit initBot (Except.error "boom")).1.errorMessage = "boom" ∧
      (handleCredentialsSubmit initBot (Except.error "boom")).1.errorMessage ≠ "") ∧
    (beginPollingForToken initBot (Except.error "boom")).1.errorMessage ≠ "" ∧
    ((handleJoinChannel initBot (Except.error "boom")).errorMessage = "boom" ∧
      (handleJoinChannel initBot (Except.error "boom")).errorMessage ≠ "") ∧
    (processBotResponse ⟨"", [], 0, true, []⟩ (Except.error "boom") "i" "t").messages =
        ([] : List Msg) ++
          [⟨"i", "Translation error: " ++ "boom", Variant.received, "t", none, some true⟩] ∧
    (onMountResult initBot (Except.error "boom")).errorMessage = initBot.errorMessage ∧
    (handleDisconnect initBot (Except.error "boom")).errorMessage = initBot.errorMessage :=
  c5_amended_error_surfacing initBot ⟨"", [], 0, true, []⟩ "boom" "i" "t" (by decide)

/-- C6 counterexample: delivering a chat event in the reachable connected
state changes `chatLogs` to a non-empty list while local storage stays
empty: the bot page's chat log is not persisted to local storage on change
(nor is the `chatHistory` store), so not every message list kept by this
code is persisted on every change. -/
theorem c6_counterexample :
    (stepBot (BotEvent.chatEvent ⟨"alice", "hi", "12:00"⟩)
        (runBot [BotEvent.mountDone (Except.ok (true, true))])).1.chatLogs =
      [⟨"alice", "hi", "12:00"⟩] ∧
    (stepBot (BotEvent.chatEvent ⟨"alice", "hi", "12:00"⟩)
        (runBot [BotEvent.mountDone (Except.ok (true, true))])).1.storage = [] :=
  ⟨rfl, rfl⟩

/-- C6 amended: only the translation chat persists its message list: once
loaded, every run of its persistence effect writes the serialised `messages`
verbatim under the chat-history key (and the draft under the draft key);
the bot page's event loop never changes local storage, and the
`chatHistory` store's `addMessage` never touches local storage. -/
theorem c6_amended_persistence (s : TestState) (e : BotEvent) (b : BotState)
    (cst : ChatStoreState) (content : String) (sender : Sender) (now : String)
    (hl : s.isLoaded = true) :
    lookupKV (persistEffect s).storage STORAGE_KEY =
        some (StoredVal.jsonVal (messagesToJson s.messages)) ∧
    lookupKV (persistEffect s).storage DRAFT_KEY = some (StoredVal.raw s.userMessage) ∧
    (stepBot e b).1.storage = b.storage ∧
    (addMessage cst content sender now).storage = cst.storage := by
  have hne : DRAFT_KEY ≠ STORAGE_KEY := by decide
  refine ⟨?_, ?_, storage_stepBot e b, rfl⟩
  · simp only [persistEffect, hl, ite_true]
    rw [lookupKV_setKV_ne _ _ _ _ hne, lookupKV_setKV_self]
  · simp only [persistEffect, hl, ite_true]
    rw [lookupKV_setKV_self]

/-- Witness for C6 amended on a loaded one-message state. -/
theorem c6_amended_persistence_witness :
    lookupKV (persistEffect ⟨"d", [⟨"a", "hi", Variant.sent, "t", none, none⟩], 0, true, []⟩).storage
        STORAGE_KEY =
      some (StoredVal.jsonVal (messagesToJson [⟨"a", "hi", Variant.sent, "t", none, none⟩])) ∧
    lookupKV (persistEffect ⟨"d", [⟨"a", "hi", Variant.sent, "t", none, none⟩], 0, true, []⟩).storage
        DRAFT_KEY = some (StoredVal.raw "d") ∧
    (stepBot BotEvent.destroy initBot).1.storage = initBot.storage ∧
    (addMessage ⟨[], 1, []⟩ "hello" Sender.user "t").storage = ([] : List (String × StoredVal)) := by
  have h := c6_amended_persistence
      ⟨"d", [⟨"a", "hi", Variant.sent, "t", none, none⟩], 0, true, []⟩
      BotEvent.destroy initBot ⟨[], 1, []⟩ "hello" Sender.user "t" rfl
  exact h

/-- C8: in every reachable state at most one chat-event subscription created
by the bot view is registered; destroying the view or disconnecting releases
it (no registered subscription remains), and starting a new listener first
invokes the unlisten function of any existing subscription. -/
theorem c8_subscription_discipline (evs : List BotEvent) (r : Except String Unit) :
    (runBot evs).active.length ≤ 1 ∧
    (onDestroy (runBot evs)).active = [] ∧
    (handleDisconnect (runBot evs) r).active = [] ∧
    ∀ h, (runBot evs).unlisten = some h →
      h ∈ (startChatListener (runBot evs)).released := by
  have hinv := invBot_run evs
  refine ⟨?_, ?_, ?_, ?_⟩
  · rcases hinv with h | h
    · rw [h]
      cases (runBot evs).unlisten <;> simp [Option.toList]
    · rw [h]
      simp
  · unfold onDestroy
    cases hu : (runBot evs).unlisten with
    | none => simpa using active_nil_of_none _ hinv hu
    | some h0 => simpa using active_erase_nil _ hinv h0 hu
  · unfold handleDisconnect
    cases hu : (runBot evs).unlisten with
    | none => simpa using active_nil_of_none _ hinv hu
    | some h0 => simpa using active_erase_nil _ hinv h0 hu
  · intro h hu
    unfold startChatListener
    rw [hu]
    simp

/-- Witness for C8: the run that restores an active channel on mount,
holding subscription handle 0. -/
theorem c8_subscription_discipline_witness :
    (runBot [BotEvent.mountDone (Except.ok (true, true))]).active.length ≤ 1 ∧
    (onDestroy (runBot [BotEvent.mountDone (Except.ok (true, true))])).active = [] ∧
    (handleDisconnect (runBot [BotEvent.mountDone (Except.ok (true, true))])
        (Except.ok ())).active = [] ∧
    (0 : Nat) ∈ (startChatListener
        (runBot [BotEvent.mountDone (Except.ok (true, true))])).released := by
  have h := c8_subscription_discipline [BotEvent.mountDone (Except.ok (true, true))]
      (Except.ok ())
  exact ⟨h.1, h.2.1, h.2.2.1, h.2.2.2 0 rfl⟩

end StarSystemBot
